import Mathlib

/-!
Verification development for the JobPortal backend.
The definitions below are a shallow embedding of the career-tools routes
(`routes/career.js`) and of the application-lifecycle route handlers
(apply, withdraw, status update).  Strings are modelled as Lean `String`,
machine integers as `Nat`/`Int`, SQL tables as Lean lists, and each route
handler as a pure function from request data (and a database state) to an
`Except`-style response (and an updated database state).
-/

namespace JobPortal

/-- Lower-case the characters of a string (model of JS `toLowerCase`). -/
def lowerChars (s : String) : List Char := s.data.map Char.toLower

/-- Boolean list-prefix test over characters. -/
def startsWithB : List Char → List Char → Bool
  | [], _ => true
  | _ :: _, [] => false
  | p :: ps, c :: cs => p == c && startsWithB ps cs

/-- Boolean substring test: does `pat` occur contiguously inside `txt`?
(model of JS `String.prototype.includes`). -/
def isSubstrB (pat : List Char) : List Char → Bool
  | [] => startsWithB pat []
  | c :: cs => startsWithB pat (c :: cs) || isSubstrB pat cs

/-- Case-insensitive substring containment of `kw` in `s`. -/
def containsCI (s kw : String) : Bool := isSubstrB kw.data (lowerChars s)

/-- The fixed 15 action-verb keywords of the resume analyzer
(`routes/career.js`, `keywords`). -/
def keywords : List String :=
  ["leadership", "managed", "developed", "implemented", "achieved",
   "increased", "reduced", "improved", "collaborated", "designed",
   "led", "created", "launched", "optimized", "scaled"]

/-- The unit words of the third alternative of the metric pattern
`[\d,]+\s*(users|customers|revenue|growth|reduction|increase)`. -/
def metricWords : List String :=
  ["users", "customers", "revenue", "growth", "reduction", "increase"]

/-- Does a match of the metric regular expression
`\d+%|\$\d+|[\d,]+\s*(users|...|increase)` (case-insensitive) start at this
suffix of the text?  A match of `\d+%` exists iff some digit is immediately
followed by `%`; a match of `\$\d+` exists iff `$` is immediately followed
by a digit; a match of the third alternative exists iff some digit-or-comma
character is followed by optional whitespace and one of the unit words. -/
def metricAt : List Char → Bool
  | [] => false
  | c :: rest =>
    (c.isDigit && (match rest with | '%' :: _ => true | _ => false))
    || (c == '$' && (match rest with | d :: _ => d.isDigit | _ => false))
    || ((c.isDigit || c == ',') &&
        metricWords.any (fun w =>
          startsWithB w.data ((rest.dropWhile Char.isWhitespace).map Char.toLower)))

/-- Does `p` hold on some suffix of the list? -/
def anySuffix (p : List Char → Bool) : List Char → Bool
  | [] => p []
  | c :: cs => p (c :: cs) || anySuffix p cs

/-- `metricPatterns.test(resumeText)` of the resume analyzer. -/
def hasMetricsB (s : String) : Bool := anySuffix metricAt s.data

/-- JS `String.prototype.trim` modelled on character lists. -/
def trimChars (cs : List Char) : List Char :=
  ((cs.dropWhile Char.isWhitespace).reverse.dropWhile Char.isWhitespace).reverse

/-- The keywords found case-insensitively in the text (`foundKeywords`). -/
def resumeFoundKeywords (s : String) : List String :=
  keywords.filter (fun kw => containsCI s kw)

/-- The keywords not found in the text (`missingKeywords`). -/
def resumeMissingKeywords (s : String) : List String :=
  keywords.filter (fun kw => !containsCI s kw)

def tipMetrics : String :=
  "Add quantifiable metrics (e.g., \"increased sales by 35%\" or \"managed team of 8 engineers\")"

/-- The keyword tip, interpolating the first five missing keywords. -/
def tipKeywordsFor (s : String) : String :=
  "Include action verbs like: " ++ String.intercalate ", " ((resumeMissingKeywords s).take 5)

def tipExpand : String :=
  "Expand your experience with specific examples and results achieved"

def tipProjects : String :=
  "Highlight specific projects or initiatives you led or contributed to"

/-- The three generic polish tips emitted when no personalized tip fires. -/
def genericTips : List String :=
  ["Strong foundation! Consider adding technical skills or certifications relevant to your target role",
   "Include links to portfolio, GitHub, or LinkedIn for additional context",
   "Tailor each bullet point to match keywords from the job description"]

/-- The ordered personalized tips (conditions (a)-(d) of the analyzer,
before the empty-check that substitutes the generic tips). -/
def personalTips (s : String) : List String :=
  (if !hasMetricsB s then [tipMetrics] else [])
  ++ (if (resumeFoundKeywords s).length < 3 then [tipKeywordsFor s] else [])
  ++ (if s.data.length < 150 then [tipExpand] else [])
  ++ (if !containsCI s "project" && !containsCI s "initiative" then [tipProjects] else [])

/-- The tips list returned by the analyzer (`tips` in `routes/career.js`). -/
def resumeTips (s : String) : List String :=
  if (personalTips s).isEmpty then genericTips else personalTips s

/-- The resume score:
`Math.min(100, found*8 + (hasMetrics?25:0) + (len>150?15:0) + 20)`. -/
def resumeScore (s : String) : Nat :=
  min 100
    ((resumeFoundKeywords s).length * 8
      + (if hasMetricsB s then 25 else 0)
      + (if s.data.length > 150 then 15 else 0)
      + 20)

/-- An HTTP-level error response: status code and message. -/
structure ApiError where
  status : Nat
  message : String
deriving DecidableEq

/-- Successful payload of `POST /analyze-resume`. -/
structure ResumeAnalysis where
  score : Nat
  tips : List String
  foundKeywords : List String
  hasMetrics : Bool
deriving DecidableEq

def resumeValidationError : ApiError :=
  { status := 400, message := "Please provide resume text (minimum 20 characters)" }

/-- JS falsiness of an optional string field: absent or the empty string. -/
def jsFalsyStr : Option String → Bool
  | none => true
  | some s => s == ""

/-- The `POST /analyze-resume` handler: reject when `resumeText` is falsy or
its trimmed length is below 20, otherwise return score, tips, the first five
found keywords and the metrics flag. -/
def analyzeResume : Option String → Except ApiError ResumeAnalysis
  | none => .error resumeValidationError
  | some s =>
    if s == "" || (trimChars s.data).length < 20 then
      .error resumeValidationError
    else
      .ok { score := resumeScore s
            tips := resumeTips s
            foundKeywords := (resumeFoundKeywords s).take 5
            hasMetrics := hasMetricsB s }

/-- The maximal non-whitespace runs of a character list (accumulator form). -/
def wordsAux : List Char → List Char → List (List Char)
  | [], acc => if acc.isEmpty then [] else [acc.reverse]
  | c :: cs, acc =>
    if c.isWhitespace then
      if acc.isEmpty then wordsAux cs [] else acc.reverse :: wordsAux cs []
    else wordsAux cs (c :: acc)

/-- The maximal non-whitespace runs of a character list. -/
def wordsOf (cs : List Char) : List (List Char) := wordsAux cs []

/-- `response.trim().split(/\s+/).length`: the number of whitespace-delimited
tokens after trimming, except that JS `"".split(/\s+/)` is `[""]`, so a
whitespace-only (or empty) string counts as 1. -/
def jsWordCount (s : String) : Nat :=
  let ws := wordsOf (trimChars s.data)
  if ws.isEmpty then 1 else ws.length

/-- `/situation|context|background/i.test(response)`. -/
def hasSituationB (s : String) : Bool :=
  ["situation", "context", "background"].any (fun w => containsCI s w)

/-- `/task|goal|objective|challenge/i.test(response)`. -/
def hasTaskB (s : String) : Bool :=
  ["task", "goal", "objective", "challenge"].any (fun w => containsCI s w)

/-- `/action|did|implemented|executed|performed/i.test(response)`. -/
def hasActionB (s : String) : Bool :=
  ["action", "did", "implemented", "executed", "performed"].any (fun w => containsCI s w)

/-- `/result|outcome|impact|achieved|accomplished/i.test(response)`. -/
def hasResultB (s : String) : Bool :=
  ["result", "outcome", "impact", "achieved", "accomplished"].any (fun w => containsCI s w)

/-- 25 points per detected STAR component. -/
def starScore (s : String) : Nat :=
  (if hasSituationB s then 25 else 0) + (if hasTaskB s then 25 else 0)
  + (if hasActionB s then 25 else 0) + (if hasResultB s then 25 else 0)

/-- `Math.min(30, Math.floor(wordCount / 10) * 5)`. -/
def lengthScore (s : String) : Nat := min 30 (jsWordCount s / 10 * 5)

/-- `Math.min(100, starScore + lengthScore + 10)`. -/
def totalScore (s : String) : Nat := min 100 (starScore s + lengthScore s + 10)

/-- A persisted `interview_practice` row. -/
structure InterviewRow where
  user_id : Nat
  prompt : String
  response : String
  duration : Option Int
  score : Nat
deriving DecidableEq

/-- A `jobs` row (the fields the application lifecycle touches). -/
structure Job where
  job_id : Nat
  user_id : Nat
  applications_count : Int
deriving DecidableEq

/-- An `applications` row (the fields the application lifecycle touches). -/
structure Application where
  application_id : Nat
  job_id : Nat
  user_id : Nat
  status : String
deriving DecidableEq

/-- The database state relevant to the verified handlers. -/
structure DB where
  jobs : List Job
  applications : List Application
  interviews : List InterviewRow
  nextAppId : Nat
deriving DecidableEq

def emptyDB : DB := { jobs := [], applications := [], interviews := [], nextAppId := 1 }

def interviewValidationError : ApiError :=
  { status := 400, message := "Prompt and response are required" }

/-- `duration || null`: a falsy duration (absent or 0) is stored as null. -/
def durationOrNull : Option Int → Option Int
  | none => none
  | some v => if v == 0 then none else some v

/-- The `POST /mock-interview` handler: reject when `prompt` or `response`
is falsy; otherwise compute the STAR/length score, insert one
`interview_practice` row, and return the score. -/
def mockInterview (db : DB) (userId : Nat) (prompt response : Option String)
    (duration : Option Int) : Except ApiError Nat × DB :=
  if jsFalsyStr prompt || jsFalsyStr response then
    (.error interviewValidationError, db)
  else
    let r := response.getD ""
    let score := totalScore r
    (.ok score,
      { db with interviews := db.interviews ++
          [{ user_id := userId, prompt := prompt.getD "", response := r,
             duration := durationOrNull duration, score := score }] })

/-- `SELECT * FROM applications WHERE job_id = ? AND user_id = ?`. -/
def findApps (db : DB) (jobId userId : Nat) : List Application :=
  db.applications.filter (fun a => a.job_id == jobId && a.user_id == userId)

/-- The `POST /apply` handler: reject with a conflict when an application for
the same (job, user) pair exists; otherwise insert an application row and
increment the job's `applications_count`. -/
def applyJob (db : DB) (jobId userId : Nat) : Except ApiError Unit × DB :=
  if (findApps db jobId userId).length > 0 then
    (.error { status := 400, message := "Already applied to this job" }, db)
  else
    (.ok (),
      { db with
          applications := db.applications ++
            [{ application_id := db.nextAppId, job_id := jobId,
               user_id := userId, status := "pending" }]
          nextAppId := db.nextAppId + 1
          jobs := db.jobs.map (fun j =>
            if j.job_id == jobId then
              { j with applications_count := j.applications_count + 1 }
            else j) })

/-- The `DELETE /:id` (withdraw) handler: 404 when the application is absent,
403 when the caller neither owns it nor is admin; otherwise delete the row
and set the job's counter to `GREATEST(applications_count - 1, 0)`. -/
def withdrawApplication (db : DB) (appId callerId : Nat) (callerRole : String) :
    Except ApiError Unit × DB :=
  match db.applications.find? (fun a => a.application_id == appId) with
  | none => (.error { status := 404, message := "Application not found" }, db)
  | some app =>
    if app.user_id != callerId && callerRole != "admin" then
      (.error { status := 403, message := "Not authorized to withdraw this application" }, db)
    else
      (.ok (),
        { db with
            applications := db.applications.filter
              (fun a => !(a.application_id == appId))
            jobs := db.jobs.map (fun j =>
              if j.job_id == app.job_id then
                { j with applications_count := max (j.applications_count - 1) 0 }
              else j) })

/-- The five valid application statuses of `PUT /:id/status`. -/
def validStatuses : List String :=
  ["pending", "reviewed", "shortlisted", "rejected", "accepted"]

/-- The `PUT /:id/status` handler: reject any status outside the fixed five;
404 when the application (joined with its job) is absent, 403 when the
caller is neither the job's poster nor admin; otherwise overwrite the
application's status unconditionally. -/
def updateApplicationStatus (db : DB) (appId : Nat) (newStatus : String)
    (callerId : Nat) (callerRole : String) : Except ApiError Unit × DB :=
  if !(validStatuses.contains newStatus) then
    (.error { status := 400, message := "Invalid status" }, db)
  else
    match db.applications.find? (fun a => a.application_id == appId) with
    | none => (.error { status := 404, message := "Application not found" }, db)
    | some app =>
      match db.jobs.find? (fun j => j.job_id == app.job_id) with
      | none => (.error { status := 404, message := "Application not found" }, db)
      | some job =>
        if job.user_id != callerId && callerRole != "admin" then
          (.error { status := 403, message := "Not authorized" }, db)
        else
          (.ok (),
            { db with applications := db.applications.map (fun a =>
                if a.application_id == appId then { a with status := newStatus }
                else a) })

/-- `Math.round` on rationals: round half toward positive infinity. -/
def jsRound (q : ℚ) : ℤ := ⌊q + 1 / 2⌋

/-- `Math.min(40, interviewCount * 8)`. -/
def interviewWeight (interviewCount : Nat) : ℚ := min 40 (interviewCount * 8)

/-- `Math.min(30, avgScore * 0.3)` (the average score modelled as a rational). -/
def scoreWeight (avgScore : ℚ) : ℚ := min 30 (avgScore * (3 / 10))

/-- `Math.min(30, totalApps * 3)`. -/
def activityWeight (totalApps : Nat) : ℚ := min 30 (totalApps * 3)

/-- `confidencePulse` of `GET /stats`. -/
def confidencePulse (interviewCount : Nat) (avgScore : ℚ) (totalApps : Nat) : ℤ :=
  jsRound (interviewWeight interviewCount + scoreWeight avgScore + activityWeight totalApps)

/-- Fixture: one job with no applications yet. -/
def dbApplyFixture : DB :=
  { jobs := [{ job_id := 1, user_id := 2, applications_count := 0 }],
    applications := [], interviews := [], nextAppId := 1 }

/-- Fixture: one application on a job whose counter is already 0. -/
def dbWithdrawFixture : DB :=
  { jobs := [{ job_id := 5, user_id := 9, applications_count := 0 }],
    applications := [{ application_id := 3, job_id := 5, user_id := 4, status := "pending" }],
    interviews := [], nextAppId := 4 }

/-- Fixture: one accepted application on a job posted by user 9. -/
def dbStatusFixture : DB :=
  { jobs := [{ job_id := 5, user_id := 9, applications_count := 1 }],
    applications := [{ application_id := 3, job_id := 5, user_id := 4, status := "accepted" }],
    interviews := [], nextAppId := 4 }

/-! ## Helper lemmas -/

theorem resumeTips_ne_nil (s : String) : resumeTips s ≠ [] := by
  unfold resumeTips
  split
  · simp [genericTips]
  · next h => exact fun hc => h (by rw [hc]; rfl)

theorem append_ne_of_take (p x g : String) (n : Nat) (hn : n ≤ p.data.length)
    (hne : p.data.take n ≠ g.data.take n) : p ++ x ≠ g := by
  intro h
  apply hne
  have hd : p.data ++ x.data = g.data := by rw [← String.data_append, h]
  rw [← hd, List.take_append_of_le_length hn]

theorem tipKeywordsFor_ne (s g : String) (hg : g ∈ genericTips) :
    tipKeywordsFor s ≠ g := by
  have hp : tipKeywordsFor s
      = "Include action verbs like: "
        ++ String.intercalate ", " ((resumeMissingKeywords s).take 5) := rfl
  rw [hp]
  simp only [genericTips, List.mem_cons, List.not_mem_nil, or_false] at hg
  rcases hg with rfl | rfl | rfl <;>
    exact append_ne_of_take _ _ _ 9 (by decide) (by decide)

theorem generic_not_mem_personal (g : String) (hg : g ∈ genericTips) (s : String) :
    g ∉ personalTips s := by
  intro hmem
  unfold personalTips at hmem
  rcases List.mem_append.mp hmem with h123 | h4
  · rcases List.mem_append.mp h123 with h12 | h3
    · rcases List.mem_append.mp h12 with h1 | h2
      · split at h1
        · simp only [List.mem_singleton] at h1
          subst h1
          revert hg
          decide
        · simp at h1
      · split at h2
        · simp only [List.mem_singleton] at h2
          exact tipKeywordsFor_ne s g hg h2.symm
        · simp at h2
    · split at h3
      · simp only [List.mem_singleton] at h3
        subst h3
        revert hg
        decide
      · simp at h3
  · split at h4
    · simp only [List.mem_singleton] at h4
      subst h4
      revert hg
      decide
    · simp at h4

/-! ## Claim theorems -/

/-- C1: for every resumeText accepted by the resume analyzer (trimmed length
at least 20), the returned score equals
`min(100, 8*|foundKeywords| + (25 if hasMetrics) + (15 if length > 150) + 20)`,
the score lies between 0 and 100, and the tips list is non-empty. -/
theorem analyzeResume_score_spec (s : String)
    (h : 20 ≤ (trimChars s.data).length) :
    ∃ r, analyzeResume (some s) = .ok r
      ∧ r.score = min 100 (8 * (resumeFoundKeywords s).length
          + (if hasMetricsB s then 25 else 0)
          + (if s.data.length > 150 then 15 else 0) + 20)
      ∧ r.score ≤ 100
      ∧ r.tips ≠ [] := by
  have hs : (s == "") = false := by
    rw [beq_eq_false_iff_ne]
    intro hempty
    rw [hempty] at h
    simp [trimChars] at h
  have hnl : decide ((trimChars s.data).length < 20) = false :=
    decide_eq_false (Nat.not_lt.mpr h)
  have heq : analyzeResume (some s)
      = .ok { score := resumeScore s, tips := resumeTips s,
              foundKeywords := (resumeFoundKeywords s).take 5,
              hasMetrics := hasMetricsB s } := by
    simp [analyzeResume, hs, hnl]
  refine ⟨_, heq, ?_, ?_, ?_⟩
  · show resumeScore s = _
    unfold resumeScore
    rw [Nat.mul_comm (resumeFoundKeywords s).length 8]
  · exact Nat.min_le_left _ _
  · exact resumeTips_ne_nil s

/-- C6: a missing resumeText, and every resumeText whose trimmed length is
below 20, is rejected by the analyzer with the validation error and no
analysis result is produced. -/
theorem analyzeResume_rejects_short (s : String)
    (h : (trimChars s.data).length < 20) :
    analyzeResume (some s) = .error resumeValidationError
    ∧ analyzeResume none = .error resumeValidationError := by
  refine ⟨?_, rfl⟩
  have hd : decide ((trimChars s.data).length < 20) = true := decide_eq_true h
  simp [analyzeResume, hd]

/-- C9: for every resume text the tips are built from the four personalized
conditions (a)-(d) in fixed order; when no condition fires the result is
exactly the three generic polish tips, and the generic tips never appear in
a personalized tips list. -/
theorem resumeTips_spec (s : String) :
    resumeTips s = (if (personalTips s).isEmpty then genericTips else personalTips s)
    ∧ personalTips s =
        (if !hasMetricsB s then [tipMetrics] else [])
        ++ (if (resumeFoundKeywords s).length < 3 then [tipKeywordsFor s] else [])
        ++ (if s.data.length < 150 then [tipExpand] else [])
        ++ (if !containsCI s "project" && !containsCI s "initiative" then [tipProjects] else [])
    ∧ (personalTips s = [] → resumeTips s = genericTips)
    ∧ (personalTips s ≠ [] → resumeTips s = personalTips s
        ∧ ∀ g ∈ genericTips, g ∉ resumeTips s) := by
  refine ⟨rfl, rfl, ?_, ?_⟩
  · intro h
    simp [resumeTips, h]
  · intro h
    have he : (personalTips s).isEmpty = false := List.isEmpty_eq_false.mpr h
    have ht : resumeTips s = personalTips s := by simp [resumeTips, he]
    refine ⟨ht, ?_⟩
    intro g hg hmem
    rw [ht] at hmem
    exact generic_not_mem_personal g hg s hmem

/-- C2: for every accepted mock-interview submission the returned and
persisted score equals `min(100, starScore + lengthScore + 10)` with
`lengthScore = min(30, floor(wordCount/10)*5)`; the total is between 0 and
100, and a response containing all four STAR components with at least 150
words scores exactly 100. -/
theorem mockInterview_score_spec (db : DB) (userId : Nat) (p r : String)
    (dur : Option Int) (hp : p ≠ "") (hr : r ≠ "") :
    mockInterview db userId (some p) (some r) dur
      = (.ok (min 100 (starScore r + lengthScore r + 10)),
         { db with interviews := db.interviews ++
             [{ user_id := userId, prompt := p, response := r,
                duration := durationOrNull dur, score := totalScore r }] })
    ∧ lengthScore r = min 30 (jsWordCount r / 10 * 5)
    ∧ totalScore r ≤ 100
    ∧ (hasSituationB r = true → hasTaskB r = true → hasActionB r = true →
        hasResultB r = true → 150 ≤ jsWordCount r → totalScore r = 100) := by
  have hps : (p == "") = false := beq_eq_false_iff_ne.mpr hp
  have hrs : (r == "") = false := beq_eq_false_iff_ne.mpr hr
  refine ⟨?_, rfl, Nat.min_le_left _ _, ?_⟩
  · simp [mockInterview, jsFalsyStr, hps, hrs, totalScore]
  · intro h1 h2 h3 h4 _
    unfold totalScore starScore
    rw [h1, h2, h3, h4]
    simp
    omega

/-- C7: a mock-interview submission with a falsy (missing or empty) prompt
or response is rejected with the validation error and the database state is
unchanged: no interview_practice row is created. -/
theorem mockInterview_rejects_missing (db : DB) (userId : Nat)
    (p r : Option String) (dur : Option Int)
    (h : jsFalsyStr p = true ∨ jsFalsyStr r = true) :
    mockInterview db userId p r dur = (.error interviewValidationError, db) := by
  unfold mockInterview
  rcases h with h | h <;> simp [h]

/-- C10: the single-space response is non-empty, consists only of whitespace,
passes the mock-interview validation, has wordCount 1, and is persisted with
score 10. -/
theorem mockInterview_whitespace_response :
    (" " : String) ≠ ""
    ∧ (∀ c ∈ (" " : String).data, c.isWhitespace = true)
    ∧ jsWordCount " " = 1
    ∧ mockInterview emptyDB 7 (some "Tell me about yourself") (some " ") none
      = (.ok 10,
         { emptyDB with interviews :=
             [{ user_id := 7, prompt := "Tell me about yourself", response := " ",
                duration := none, score := 10 }] }) :=
  ⟨by decide, by decide, rfl, rfl⟩

theorem applyJob_conflict_of_existing (db : DB) (jobId userId : Nat)
    (h : 0 < (findApps db jobId userId).length) :
    applyJob db jobId userId
      = (.error { status := 400, message := "Already applied to this job" }, db) := by
  unfold applyJob
  rw [if_pos h]

theorem applyJob_fresh (db : DB) (jobId userId : Nat)
    (h : findApps db jobId userId = []) :
    applyJob db jobId userId
      = (.ok (),
         { db with
             applications := db.applications ++
               [{ application_id := db.nextAppId, job_id := jobId,
                  user_id := userId, status := "pending" }]
             nextAppId := db.nextAppId + 1
             jobs := db.jobs.map (fun j =>
               if j.job_id == jobId then
                 { j with applications_count := j.applications_count + 1 }
               else j) }) := by
  unfold applyJob
  rw [if_neg (by rw [h]; simp)]

/-- C4: applying twice sequentially to the same job as the same user (starting
from a state with no application for the pair) makes the first call succeed,
the second call return the conflict error leaving the state untouched, leaves
exactly one application row for the pair, and increments the job's
applications_count exactly once. -/
theorem applyJob_twice_conflict (db : DB) (jobId userId : Nat)
    (hfresh : findApps db jobId userId = []) :
    (applyJob db jobId userId).1 = .ok ()
    ∧ applyJob (applyJob db jobId userId).2 jobId userId
        = (.error { status := 400, message := "Already applied to this job" },
           (applyJob db jobId userId).2)
    ∧ (findApps (applyJob db jobId userId).2 jobId userId).length = 1
    ∧ (applyJob db jobId userId).2.jobs
        = db.jobs.map (fun j =>
            if j.job_id == jobId then
              { j with applications_count := j.applications_count + 1 }
            else j) := by
  have h1 := applyJob_fresh db jobId userId hfresh
  have h2 : findApps (applyJob db jobId userId).2 jobId userId
      = [{ application_id := db.nextAppId, job_id := jobId,
           user_id := userId, status := "pending" }] := by
    rw [h1]
    unfold findApps at hfresh ⊢
    simp only [List.filter_append, hfresh]
    simp
  refine ⟨by rw [h1], ?_, by rw [h2]; rfl, by rw [h1]⟩
  exact applyJob_conflict_of_existing _ jobId userId (by rw [h2]; simp)

/-- C5: withdrawing an existing application as its owner (or as admin)
deletes the row and sets the job's applications_count to
`GREATEST(count - 1, 0)`: the new counter is never negative, a zero counter
stays zero, and a positive counter decreases by exactly one. -/
theorem withdrawApplication_spec (db : DB) (appId callerId : Nat) (role : String)
    (app : Application)
    (hfind : db.applications.find? (fun a => a.application_id == appId) = some app)
    (hauth : app.user_id = callerId ∨ role = "admin") :
    withdrawApplication db appId callerId role
      = (.ok (), { db with
          applications := db.applications.filter (fun a => !(a.application_id == appId))
          jobs := db.jobs.map (fun j =>
            if j.job_id == app.job_id then
              { j with applications_count := max (j.applications_count - 1) 0 }
            else j) })
    ∧ (∀ a ∈ db.applications.filter (fun a => !(a.application_id == appId)),
        a.application_id ≠ appId)
    ∧ (∀ j ∈ db.jobs, j.job_id = app.job_id →
        (0 : Int) ≤ max (j.applications_count - 1) 0
        ∧ (j.applications_count = 0 → max (j.applications_count - 1) 0 = 0)
        ∧ (1 ≤ j.applications_count →
            max (j.applications_count - 1) 0 = j.applications_count - 1)) := by
  have hguard : (app.user_id != callerId && role != "admin") = false := by
    rcases hauth with h | h <;> simp [h]
  refine ⟨?_, ?_, ?_⟩
  · unfold withdrawApplication
    rw [hfind]
    simp [hguard]
  · intro a ha
    have := (List.mem_filter.mp ha).2
    simpa using this
  · intro j _ _
    refine ⟨le_max_right _ _, ?_, ?_⟩
    · intro hc
      rw [hc]
      norm_num
    · intro hc
      exact max_eq_left (by omega)

/-- C8: the status-update handler accepts exactly the five statuses pending,
reviewed, shortlisted, rejected, accepted, rejecting every other value with a
validation error and no state change; for an authorized caller any current
status of an existing application is overwritten to the requested one. -/
theorem updateApplicationStatus_spec (db : DB) (appId : Nat) (s : String)
    (callerId : Nat) (role : String) (app : Application) (job : Job)
    (happ : db.applications.find? (fun a => a.application_id == appId) = some app)
    (hjob : db.jobs.find? (fun j => j.job_id == app.job_id) = some job)
    (hauth : job.user_id = callerId ∨ role = "admin") :
    validStatuses = ["pending", "reviewed", "shortlisted", "rejected", "accepted"]
    ∧ (s ∉ validStatuses →
        updateApplicationStatus db appId s callerId role
          = (.error { status := 400, message := "Invalid status" }, db))
    ∧ (s ∈ validStatuses →
        updateApplicationStatus db appId s callerId role
          = (.ok (), { db with applications := db.applications.map (fun a =>
              if a.application_id == appId then { a with status := s } else a) })) := by
  have hguard : (job.user_id != callerId && role != "admin") = false := by
    rcases hauth with h | h <;> simp [h]
  refine ⟨rfl, ?_, ?_⟩
  · intro h
    simp [updateApplicationStatus, h]
  · intro h
    have hc : validStatuses.contains s = true := List.elem_eq_true_of_mem h
    rcases hauth with ha | ha
    · simp [updateApplicationStatus, hc, happ, hjob, ha]
      exact h
    · simp [updateApplicationStatus, hc, happ, hjob, ha]
      exact h

/-- C3 counterexample: with 5 interviews averaging 99 and 10 applications the
confidence pulse is 100 even though the score weight has not reached its cap
of 30, refuting "it saturates at 100 exactly when all three caps are
reached". -/
theorem confidencePulse_cap_counterexample :
    confidencePulse 5 99 10 = 100 ∧ scoreWeight 99 < 30 := by
  constructor
  · unfold confidencePulse jsRound interviewWeight scoreWeight activityWeight
    rw [show (((5:ℕ):ℚ)) * 8 = 40 by norm_num,
        show (((10:ℕ):ℚ)) * 3 = 30 by norm_num,
        show (99:ℚ) * (3/10) = 297/10 by norm_num,
        min_self, min_self,
        min_eq_right (by norm_num : (297/10:ℚ) ≤ 30),
        show (40:ℚ) + 297/10 + 30 + 1/2 = 501/5 by norm_num,
        Int.floor_eq_iff]
    norm_num
  · unfold scoreWeight
    rw [min_lt_iff]
    right
    norm_num

/-- C3 (amended): the confidence pulse is the rounded sum of the three capped
weights; for non-negative inputs it lies between 0 and 100, it is 0 for a
user with no interviews and no applications, and it reaches 100 when all
three caps are reached (5 interviews averaging 100 and 10 applications),
though reaching all caps is not necessary for a pulse of 100. -/
theorem confidencePulse_spec (ic : Nat) (avg : ℚ) (apps : Nat) (h : 0 ≤ avg) :
    confidencePulse ic avg apps
      = jsRound (interviewWeight ic + scoreWeight avg + activityWeight apps)
    ∧ 0 ≤ confidencePulse ic avg apps
    ∧ confidencePulse ic avg apps ≤ 100
    ∧ confidencePulse 0 0 0 = 0
    ∧ confidencePulse 5 100 10 = 100 := by
  have hiw0 : 0 ≤ interviewWeight ic := le_min (by norm_num) (by positivity)
  have hsw0 : 0 ≤ scoreWeight avg := le_min (by norm_num) (by positivity)
  have haw0 : 0 ≤ activityWeight apps := le_min (by norm_num) (by positivity)
  have hiw1 : interviewWeight ic ≤ 40 := min_le_left _ _
  have hsw1 : scoreWeight avg ≤ 30 := min_le_left _ _
  have haw1 : activityWeight apps ≤ 30 := min_le_left _ _
  refine ⟨rfl, ?_, ?_, ?_, ?_⟩
  · unfold confidencePulse jsRound
    exact Int.le_floor.mpr (by push_cast; linarith)
  · unfold confidencePulse jsRound
    have h2 : ⌊interviewWeight ic + scoreWeight avg + activityWeight apps + 1/2⌋
        ≤ ⌊(100:ℚ) + 1/2⌋ := Int.floor_le_floor (by linarith)
    have h3 : ⌊(100:ℚ) + 1/2⌋ = 100 := by
      rw [Int.floor_eq_iff]
      norm_num
    omega
  · have e1 : interviewWeight 0 = 0 := by
      unfold interviewWeight
      rw [show (((0:ℕ):ℚ)) * 8 = 0 by norm_num]
      exact min_eq_right (by norm_num)
    have e2 : scoreWeight 0 = 0 := by
      unfold scoreWeight
      rw [show ((0:ℚ)) * (3/10) = 0 by norm_num]
      exact min_eq_right (by norm_num)
    have e3 : activityWeight 0 = 0 := by
      unfold activityWeight
      rw [show (((0:ℕ):ℚ)) * 3 = 0 by norm_num]
      exact min_eq_right (by norm_num)
    unfold confidencePulse jsRound
    rw [e1, e2, e3, show (0:ℚ) + 0 + 0 + 1/2 = 1/2 by norm_num, Int.floor_eq_iff]
    norm_num
  · have e4 : interviewWeight 5 = 40 := by
      unfold interviewWeight
      rw [show (((5:ℕ):ℚ)) * 8 = 40 by norm_num]
      exact min_self 40
    have e5 : scoreWeight 100 = 30 := by
      unfold scoreWeight
      rw [show ((100:ℚ)) * (3/10) = 30 by norm_num]
      exact min_self 30
    have e6 : activityWeight 10 = 30 := by
      unfold activityWeight
      rw [show (((10:ℕ):ℚ)) * 3 = 30 by norm_num]
      exact min_self 30
    unfold confidencePulse jsRound
    rw [e4, e5, e6, show (40:ℚ) + 30 + 30 + 1/2 = 201/2 by norm_num, Int.floor_eq_iff]
    norm_num

/-! ## Witnesses -/

/-- Witness for C1 at a concrete accepted resume text. -/
theorem analyzeResume_score_spec_witness :
    20 ≤ (trimChars ("Managed a team of 8 engineers and developed new tools").data).length
    ∧ (∃ r, analyzeResume (some "Managed a team of 8 engineers and developed new tools") = .ok r
      ∧ r.score = min 100
          (8 * (resumeFoundKeywords "Managed a team of 8 engineers and developed new tools").length
            + (if hasMetricsB "Managed a team of 8 engineers and developed new tools" then 25 else 0)
            + (if ("Managed a team of 8 engineers and developed new tools").data.length > 150 then 15 else 0)
            + 20)
      ∧ r.score ≤ 100
      ∧ r.tips ≠ []) :=
  ⟨by decide, analyzeResume_score_spec _ (by decide)⟩

/-- Witness for C2 at a concrete non-empty prompt and response. -/
theorem mockInterview_score_spec_witness :
    ("Tell me about a challenge" : String) ≠ ""
    ∧ ("I faced a tough situation and my goal was clear" : String) ≠ ""
    ∧ (mockInterview emptyDB 3 (some "Tell me about a challenge")
        (some "I faced a tough situation and my goal was clear") none
      = (.ok (min 100 (starScore "I faced a tough situation and my goal was clear"
            + lengthScore "I faced a tough situation and my goal was clear" + 10)),
         { emptyDB with interviews := emptyDB.interviews ++
             [{ user_id := 3, prompt := "Tell me about a challenge",
                response := "I faced a tough situation and my goal was clear",
                duration := durationOrNull none,
                score := totalScore "I faced a tough situation and my goal was clear" }] })
    ∧ lengthScore "I faced a tough situation and my goal was clear"
        = min 30 (jsWordCount "I faced a tough situation and my goal was clear" / 10 * 5)
    ∧ totalScore "I faced a tough situation and my goal was clear" ≤ 100
    ∧ (hasSituationB "I faced a tough situation and my goal was clear" = true →
        hasTaskB "I faced a tough situation and my goal was clear" = true →
        hasActionB "I faced a tough situation and my goal was clear" = true →
        hasResultB "I faced a tough situation and my goal was clear" = true →
        150 ≤ jsWordCount "I faced a tough situation and my goal was clear" →
        totalScore "I faced a tough situation and my goal was clear" = 100)) :=
  ⟨by decide, by decide,
    mockInterview_score_spec emptyDB 3 "Tell me about a challenge"
      "I faced a tough situation and my goal was clear" none (by decide) (by decide)⟩

/-- Witness for C3 (amended) at concrete non-negative inputs. -/
theorem confidencePulse_spec_witness :
    (0:ℚ) ≤ 50
    ∧ (confidencePulse 2 50 3
        = jsRound (interviewWeight 2 + scoreWeight 50 + activityWeight 3)
      ∧ 0 ≤ confidencePulse 2 50 3
      ∧ confidencePulse 2 50 3 ≤ 100
      ∧ confidencePulse 0 0 0 = 0
      ∧ confidencePulse 5 100 10 = 100) :=
  ⟨by norm_num, confidencePulse_spec 2 50 3 (by norm_num)⟩

/-- Witness for C4 on the fixture with a fresh (job, user) pair. -/
theorem applyJob_twice_conflict_witness :
    findApps dbApplyFixture 1 3 = []
    ∧ ((applyJob dbApplyFixture 1 3).1 = .ok ()
    ∧ applyJob (applyJob dbApplyFixture 1 3).2 1 3
        = (.error { status := 400, message := "Already applied to this job" },
           (applyJob dbApplyFixture 1 3).2)
    ∧ (findApps (applyJob dbApplyFixture 1 3).2 1 3).length = 1
    ∧ (applyJob dbApplyFixture 1 3).2.jobs
        = dbApplyFixture.jobs.map (fun j =>
            if j.job_id == 1 then
              { j with applications_count := j.applications_count + 1 }
            else j)) :=
  ⟨rfl, applyJob_twice_conflict dbApplyFixture 1 3 rfl⟩

/-- Witness for C5 on the fixture whose job counter is already 0. -/
theorem withdrawApplication_spec_witness :
    dbWithdrawFixture.applications.find? (fun a => a.application_id == 3)
      = some { application_id := 3, job_id := 5, user_id := 4, status := "pending" }
    ∧ ((4:Nat) = 4 ∨ ("job_seeker":String) = "admin")
    ∧ (withdrawApplication dbWithdrawFixture 3 4 "job_seeker"
      = (.ok (), { dbWithdrawFixture with
          applications := dbWithdrawFixture.applications.filter
            (fun a => !(a.application_id == 3))
          jobs := dbWithdrawFixture.jobs.map (fun j =>
            if j.job_id == 5 then
              { j with applications_count := max (j.applications_count - 1) 0 }
            else j) })
    ∧ (∀ a ∈ dbWithdrawFixture.applications.filter (fun a => !(a.application_id == 3)),
        a.application_id ≠ 3)
    ∧ (∀ j ∈ dbWithdrawFixture.jobs, j.job_id = 5 →
        (0 : Int) ≤ max (j.applications_count - 1) 0
        ∧ (j.applications_count = 0 → max (j.applications_count - 1) 0 = 0)
        ∧ (1 ≤ j.applications_count →
            max (j.applications_count - 1) 0 = j.applications_count - 1))) :=
  ⟨rfl, Or.inl rfl,
    withdrawApplication_spec dbWithdrawFixture 3 4 "job_seeker"
      { application_id := 3, job_id := 5, user_id := 4, status := "pending" }
      rfl (Or.inl rfl)⟩

/-- Witness for C6 at a concrete too-short resume text. -/
theorem analyzeResume_rejects_short_witness :
    (trimChars ("too short").data).length < 20
    ∧ (analyzeResume (some "too short") = .error resumeValidationError
      ∧ analyzeResume none = .error resumeValidationError) :=
  ⟨by decide, analyzeResume_rejects_short "too short" (by decide)⟩

/-- Witness for C7 at a concrete request with a missing prompt. -/
theorem mockInterview_rejects_missing_witness :
    (jsFalsyStr none = true ∨ jsFalsyStr (some "an answer") = true)
    ∧ mockInterview emptyDB 1 none (some "an answer") none
        = (.error interviewValidationError, emptyDB) :=
  ⟨Or.inl rfl, mockInterview_rejects_missing emptyDB 1 none (some "an answer") none (Or.inl rfl)⟩

/-- Witness for C8 on the fixture: the poster overwrites an accepted
application back to pending. -/
theorem updateApplicationStatus_spec_witness :
    dbStatusFixture.applications.find? (fun a => a.application_id == 3)
      = some { application_id := 3, job_id := 5, user_id := 4, status := "accepted" }
    ∧ dbStatusFixture.jobs.find? (fun j => j.job_id == 5)
      = some { job_id := 5, user_id := 9, applications_count := 1 }
    ∧ ((9:Nat) = 9 ∨ ("job_poster":String) = "admin")
    ∧ (validStatuses = ["pending", "reviewed", "shortlisted", "rejected", "accepted"]
    ∧ (("pending":String) ∉ validStatuses →
        updateApplicationStatus dbStatusFixture 3 "pending" 9 "job_poster"
          = (.error { status := 400, message := "Invalid status" }, dbStatusFixture))
    ∧ (("pending":String) ∈ validStatuses →
        updateApplicationStatus dbStatusFixture 3 "pending" 9 "job_poster"
          = (.ok (), { dbStatusFixture with
              applications := dbStatusFixture.applications.map (fun a =>
                if a.application_id == 3 then { a with status := "pending" } else a) }))) :=
  ⟨rfl, rfl, Or.inl rfl,
    updateApplicationStatus_spec dbStatusFixture 3 "pending" 9 "job_poster"
      { application_id := 3, job_id := 5, user_id := 4, status := "accepted" }
      { job_id := 5, user_id := 9, applications_count := 1 }
      rfl rfl (Or.inl rfl)⟩

/-- Witness for C9 at a concrete resume text. -/
theorem resumeTips_spec_witness :
    resumeTips "short text"
      = (if (personalTips "short text").isEmpty then genericTips else personalTips "short text")
    ∧ personalTips "short text" =
        (if !hasMetricsB "short text" then [tipMetrics] else [])
        ++ (if (resumeFoundKeywords "short text").length < 3 then [tipKeywordsFor "short text"] else [])
        ++ (if ("short text").data.length < 150 then [tipExpand] else [])
        ++ (if !containsCI "short text" "project" && !containsCI "short text" "initiative"
            then [tipProjects] else [])
    ∧ (personalTips "short text" = [] → resumeTips "short text" = genericTips)
    ∧ (personalTips "short text" ≠ [] → resumeTips "short text" = personalTips "short text"
        ∧ ∀ g ∈ genericTips, g ∉ resumeTips "short text") :=
  resumeTips_spec "short text"

end JobPortal
